import Mathlib

/-!
# SCP front end: shallow embedding and verification

This file embeds the lexical-to-syntactic pipeline of the SCP compiler front
end (the generic DFA engine `src/lexer/dfa.cpp`, the multi-automaton maximal
munch tokenizer `src/lexer/lexer.cpp`, the predictive parser
`src/parser/ll1_parser.cpp` and the shift-reduce parser
`src/parser/slr_parser.cpp`) and proves or refutes the specified properties.

Conventions of the embedding:
* C++ `int` fields are `Int`, `size_t` positions are `Nat`.
* `std::unordered_map` keyed lookups are association lists (`AlistInsert`,
  `AlistFind?`, ...); `operator[]` insertion semantics is modelled where the
  source uses it.
* Fallible C++ operations whose failure is undefined behaviour (indexing a
  vector out of range, dereferencing an empty `std::optional`, `top()`/`pop()`
  on an empty stack) are `Option`-valued or produce a dedicated `ub` outcome:
  `none`/`ub` marks exactly the inputs on which the C++ has no defined result.
* `while` loops are fuel-indexed recursions; fuel exhaustion is also folded
  into the `ub`/`none` outcome, and the drivers pass fuel large enough that it
  is never reached on the inputs appearing in the theorems (each theorem
  asserts a definite outcome, which a fuel-exhausted run could not produce).
-/

set_option maxRecDepth 1000000

namespace SCP

/-- The `core::TokenType` from `include/core/token.h`. -/
inductive TokenType
  | IDENTIFIER
  | NUMBER
  | PLUS
  | TIMES
  | LEFT_PAREN
  | RIGHT_PAREN
  | ASSIGN
  | SEMICOLON
  | END_OF_FILE
  | STRING
deriving DecidableEq, Repr

/-- The `core::Token` from `include/core/token.h`: kind, lexeme and 1-based
source position. -/
structure Token where
  type_ : TokenType
  value_ : String
  line_ : Int
  column_ : Int
deriving DecidableEq, Repr

/-- The `core::ASTNodeType` from `include/core/ast.h`. -/
inductive ASTNodeType
  | ROOT
  | IDENTIFIER
  | NUMBER
  | PLUS
  | TIMES
  | ASSIGN
  | STRING
deriving DecidableEq, Repr

/-- The `core::AST::ASTNode`: kind, value and ordered children
(`AddChild` appends, `std::list::push_back`). -/
inductive ASTNode
  | mk (type_ : ASTNodeType) (value_ : String) (children_ : List ASTNode)

/-- The `core::TreeNode` (parse-tree node): a label and ordered children. The
source stores children in a `std::list` filled with `push_front` and iterated
front to back; the embedding stores the list exactly in that iteration
order (a new child is prepended). -/
inductive TreeNode
  | mk (val_ : String) (children_ : List TreeNode)

def TreeNode.val_ : TreeNode → String
  | .mk v _ => v

def TreeNode.children_ : TreeNode → List TreeNode
  | .mk _ cs => cs

/-! ## Association-list models of the hash containers -/

/-- The `std::unordered_map<char,int>` assignment `m[k] = v`: overwrite the entry
if the key is present, otherwise add it. -/
def AlistInsert (m : List (Char × Int)) (k : Char) (v : Int) : List (Char × Int) :=
  match m with
  | [] => [(k, v)]
  | (k0, v0) :: rest => if k0 = k then (k, v) :: rest else (k0, v0) :: AlistInsert rest k v

/-- The `std::unordered_map<char,int>::find`. -/
def AlistFind? (m : List (Char × Int)) (k : Char) : Option Int :=
  match m with
  | [] => none
  | (k0, v0) :: rest => if k0 = k then some v0 else AlistFind? rest k

/-- The `std::unordered_map<std::string, α>::find`. -/
def SAlistFind? {α : Type} (m : List (String × α)) (k : String) : Option α :=
  match m with
  | [] => none
  | (k0, v0) :: rest => if k0 = k then some v0 else SAlistFind? rest k

/-- The `std::unordered_map<int, α>::find`. -/
def IAlistFind? {α : Type} (m : List (Int × α)) (k : Int) : Option α :=
  match m with
  | [] => none
  | (k0, v0) :: rest => if k0 = k then some v0 else IAlistFind? rest k

/-- The `std::unordered_set<int>::insert`. -/
def ISetInsert (s : List Int) (v : Int) : List Int :=
  if s.contains v then s else s ++ [v]

/-! ## DFA engine (`src/lexer/dfa.cpp`, `include/lexer/dfa.h`) -/

/-- Transition-matrix read `(*states_transition_released_[i])[j]` with C++
`int` indices: `none` exactly when the row index is outside the vector, which
in the source is an out-of-range `std::vector` access (undefined behaviour).
The column index always comes from the alphabet map and is in range. -/
def MatrixGet? (m : List (List Int)) (i : Int) (j : Int) : Option Int :=
  if i < 0 || j < 0 then none
  else
    match m.get? i.toNat with
    | none => none
    | some row => row.get? j.toNat

/-- Transition-matrix write `states_transition_[i][j] = v` (always called with
in-range indices, guarded by `AddTransition`). -/
def MatrixSet (m : List (List Int)) (i : Nat) (j : Nat) (v : Int) : List (List Int) :=
  match m.get? i with
  | none => m
  | some row => m.set i (row.set j v)

/-- The `Compress` from `dfa.cpp`: rows already seen are drawn from the row pool
(the source shares the pooled row through a `shared_ptr`; sharing is
value-preserving, so the pooled row equals the input row). -/
def Compress (input : List (List Int)) : List (List Int) :=
  (input.foldl
    (fun (acc : List (List Int) × List (List Int)) row =>
      match acc.2.find? (fun r => r = row) with
      | some pooled => (acc.1 ++ [pooled], acc.2)
      | none => (acc.1 ++ [row], acc.2 ++ [row]))
    ([], [])).1

/-- The `lexer::DeterministicFiniteAutomata`. `initial_state_` is the constant 0
in the source and is left implicit. -/
structure DeterministicFiniteAutomata where
  token_class_ : TokenType
  final_states_ : List Int
  current_state_ : Int
  num_states_ : Int
  states_transition_released_ : List (List Int)
  states_transition_ : List (List Int)
  alphabet_ : List (Char × Int)
  released_ : Bool
deriving DecidableEq, Repr

namespace DeterministicFiniteAutomata

/-- The constructor `DeterministicFiniteAutomata(num_states, alphabet,
token_class)`: an all `-1` transition matrix and the alphabet map
`alphabet_[alphabet[i]] = i`. -/
def new (num_states : Int) (alphabet : String) (token_class : TokenType) :
    DeterministicFiniteAutomata :=
  { token_class_ := token_class
    final_states_ := []
    current_state_ := 0
    num_states_ := num_states
    states_transition_released_ := []
    states_transition_ :=
      List.replicate num_states.toNat (List.replicate alphabet.length (-1))
    alphabet_ :=
      (alphabet.toList.enum.foldl
        (fun m ic => AlistInsert m ic.2 (Int.ofNat ic.1)) [])
    released_ := false }

/-- The `Release()`: mark released and build the compacted table. -/
def Release (d : DeterministicFiniteAutomata) : DeterministicFiniteAutomata :=
  { d with released_ := true, states_transition_released_ := Compress d.states_transition_ }

/-- The `AddTransition(from_state, symbol, to_state)`: the `bool` result plus the
updated automaton; all three failure paths return the automaton unchanged. -/
def AddTransition (d : DeterministicFiniteAutomata) (from_state : Int) (symbol : Char)
    (to_state : Int) : Bool × DeterministicFiniteAutomata :=
  if d.released_ then (false, d)
  else if from_state < 0 || from_state ≥ d.num_states_ ||
      to_state < 0 || to_state ≥ d.num_states_ then (false, d)
  else
    match AlistFind? d.alphabet_ symbol with
    | none => (false, d)
    | some idx =>
        let d1 :=
          { d with states_transition_ :=
                     MatrixSet d.states_transition_ from_state.toNat idx.toNat to_state }
        (true, d1)

/-- The `SetFinalState(state)`. -/
def SetFinalState (d : DeterministicFiniteAutomata) (state : Int) :
    Bool × DeterministicFiniteAutomata :=
  if d.released_ then (false, d)
  else if state < 0 || state ≥ d.num_states_ then (false, d)
  else (true, { d with final_states_ := ISetInsert d.final_states_ state })

/-- The `Init()`: reset to the initial state 0. -/
def Init (d : DeterministicFiniteAutomata) : DeterministicFiniteAutomata :=
  { d with current_state_ := 0 }

/-- The `IsAccepted()`. -/
def IsAccepted (d : DeterministicFiniteAutomata) : Bool :=
  d.final_states_.contains d.current_state_

/-- The `Evaluate(byte)`. The result is `none` exactly when the source indexes
`states_transition_released_` out of range (only possible with
`current_state_ = -1`, the dead marker): that access is undefined behaviour.
All defined paths return the `bool` result and the updated automaton. -/
def Evaluate (d : DeterministicFiniteAutomata) (byte : Char) :
    Option (Bool × DeterministicFiniteAutomata) :=
  if !d.released_ then some (false, d)
  else
    match AlistFind? d.alphabet_ byte with
    | none => some (false, { d with current_state_ := -1 })
    | some symbol_index =>
        match MatrixGet? d.states_transition_released_ d.current_state_ symbol_index with
        | none => none
        | some s => some (s != -1, { d with current_state_ := s })

end DeterministicFiniteAutomata

/-! ## Tokenizer (`src/lexer/lexer.cpp`, `include/constant/alphabet.h`) -/

namespace Alphabet

def DIGIT_ALPHABET : String := "0123456789"
def IDENTIFIER_ALPHABET : String :=
  "0123456789abcdefghijklmnopqrstuvwxyzABCDEFGHIJKLMNOPQRSTUVWXYZ_"
def PLUS_ALPHABET : String := "+"
def TIMES_ALPHABET : String := "*"
def LEFT_PAREN_ALPHABET : String := "("
def RIGHT_PAREN_ALPHABET : String := ")"
def ASSIGN_ALPHABET : String := "<-"
def SEMICOLON_ALPHABET : String := ";"

/-- Modelled from the spec: `constant::Alphabet::STRING_ALPHABET` is used by
`src/lexer/lexer.cpp` but its definition is not among the repository sources
(`include/constant/alphabet.h` stops at `SEMICOLON_ALPHABET`). Section 4.2 of
the specification describes the string automaton as a quote-delimited body
that may itself contain whitespace; the modelled alphabet is the double
quote together with letters, digits, the space and the language punctuation.
No property proved below depends on the exact body set: the automaton dies on
any character reaching a `-1` entry just as on one outside the alphabet. -/
def STRING_ALPHABET : String :=
  "\"0123456789abcdefghijklmnopqrstuvwxyzABCDEFGHIJKLMNOPQRSTUVWXYZ_ +*();<-"

end Alphabet

/-- The `lexer::Lexer`: the scan position plus the nine automata.
`dfa_list_` holds them in registration order
(number, identifier, times, plus, left paren, right paren, assign,
semicolon, string); index 8 is the string automaton. -/
structure Lexer where
  input_ : List Char
  current_pos_ : Nat
  current_line_ : Int
  current_column_ : Int
  dfa_list_ : List DeterministicFiniteAutomata
  survival_list_ : List Bool
deriving DecidableEq, Repr

namespace Lexer

/-- The explicit character ranges of the `for (char c = 'a'; c <= 'z'; ++c)`
loops in `SetupIdentifierDFA`. -/
def lowercaseChars : List Char := "abcdefghijklmnopqrstuvwxyz".toList

def uppercaseChars : List Char := "ABCDEFGHIJKLMNOPQRSTUVWXYZ".toList

/-- The `SetupNumberDFA`: digit moves state 0 to 1 and loops on 1; 1 accepts. -/
def SetupNumberDFA (d0 : DeterministicFiniteAutomata) : DeterministicFiniteAutomata :=
  let d := Alphabet.DIGIT_ALPHABET.toList.foldl
    (fun d c => ((d.AddTransition 0 c 1).2.AddTransition 1 c 1).2) d0
  (d.SetFinalState 1).2

/-- The `SetupIdentifierDFA`: letter or underscore starts, alphanumeric or
underscore continues; 1 accepts. -/
def SetupIdentifierDFA (d0 : DeterministicFiniteAutomata) : DeterministicFiniteAutomata :=
  let d := lowercaseChars.foldl (fun d c => (d.AddTransition 0 c 1).2) d0
  let d := uppercaseChars.foldl (fun d c => (d.AddTransition 0 c 1).2) d
  let d := (d.AddTransition 0 '_' 1).2
  let d := Alphabet.IDENTIFIER_ALPHABET.toList.foldl
    (fun d c => (d.AddTransition 1 c 1).2) d
  (d.SetFinalState 1).2

def SetupPlusDFA (d0 : DeterministicFiniteAutomata) : DeterministicFiniteAutomata :=
  ((d0.AddTransition 0 '+' 1).2.SetFinalState 1).2

def SetupLeftParenDFA (d0 : DeterministicFiniteAutomata) : DeterministicFiniteAutomata :=
  ((d0.AddTransition 0 '(' 1).2.SetFinalState 1).2

def SetupRightParenDFA (d0 : DeterministicFiniteAutomata) : DeterministicFiniteAutomata :=
  ((d0.AddTransition 0 ')' 1).2.SetFinalState 1).2

def SetupTimesDFA (d0 : DeterministicFiniteAutomata) : DeterministicFiniteAutomata :=
  ((d0.AddTransition 0 '*' 1).2.SetFinalState 1).2

/-- The `SetupAssignDFA`: the two-character sequence `<` then `-`; 2 accepts. -/
def SetupAssignDFA (d0 : DeterministicFiniteAutomata) : DeterministicFiniteAutomata :=
  (((d0.AddTransition 0 '<' 1).2.AddTransition 1 '-' 2).2.SetFinalState 2).2

def SetupSemicolonDFA (d0 : DeterministicFiniteAutomata) : DeterministicFiniteAutomata :=
  ((d0.AddTransition 0 ';' 1).2.SetFinalState 1).2

/-- The `SetupStringDFA`: quote opens (0 to 1), quote closes (1 to 2, accepting),
every non-quote alphabet character loops on 1. -/
def SetupStringDFA (d0 : DeterministicFiniteAutomata) : DeterministicFiniteAutomata :=
  let d := (d0.AddTransition 0 '\"' 1).2
  let d := (d.AddTransition 1 '\"' 2).2
  let d := Alphabet.STRING_ALPHABET.toList.foldl
    (fun d c => if c ≠ '\"' then (d.AddTransition 1 c 1).2 else d) d
  (d.SetFinalState 2).2

/-- The `number_dfa_` as built and released by `InitializeDFAs`. -/
def number_dfa : DeterministicFiniteAutomata :=
  (SetupNumberDFA
    (DeterministicFiniteAutomata.new 2 Alphabet.DIGIT_ALPHABET TokenType.NUMBER)).Release

def identifier_dfa : DeterministicFiniteAutomata :=
  (SetupIdentifierDFA
    (DeterministicFiniteAutomata.new 2 Alphabet.IDENTIFIER_ALPHABET TokenType.IDENTIFIER)).Release

def plus_dfa : DeterministicFiniteAutomata :=
  (SetupPlusDFA
    (DeterministicFiniteAutomata.new 2 Alphabet.PLUS_ALPHABET TokenType.PLUS)).Release

def left_paren_dfa : DeterministicFiniteAutomata :=
  (SetupLeftParenDFA
    (DeterministicFiniteAutomata.new 2 Alphabet.LEFT_PAREN_ALPHABET TokenType.LEFT_PAREN)).Release

def right_paren_dfa : DeterministicFiniteAutomata :=
  (SetupRightParenDFA
    (DeterministicFiniteAutomata.new 2 Alphabet.RIGHT_PAREN_ALPHABET TokenType.RIGHT_PAREN)).Release

def times_dfa : DeterministicFiniteAutomata :=
  (SetupTimesDFA
    (DeterministicFiniteAutomata.new 2 Alphabet.TIMES_ALPHABET TokenType.TIMES)).Release

def assign_dfa : DeterministicFiniteAutomata :=
  (SetupAssignDFA
    (DeterministicFiniteAutomata.new 3 Alphabet.ASSIGN_ALPHABET TokenType.ASSIGN)).Release

def semicolon_dfa : DeterministicFiniteAutomata :=
  (SetupSemicolonDFA
    (DeterministicFiniteAutomata.new 2 Alphabet.SEMICOLON_ALPHABET TokenType.SEMICOLON)).Release

def string_dfa : DeterministicFiniteAutomata :=
  (SetupStringDFA
    (DeterministicFiniteAutomata.new 3 Alphabet.STRING_ALPHABET TokenType.STRING)).Release

/-- The constructor `Lexer()` / `InitializeDFAs()`: all automata built,
released and registered; `survival_list_` resized to nine entries. -/
def new : Lexer :=
  { input_ := []
    current_pos_ := 0
    current_line_ := 1
    current_column_ := 1
    dfa_list_ :=
      [number_dfa, identifier_dfa, times_dfa, plus_dfa, left_paren_dfa,
       right_paren_dfa, assign_dfa, semicolon_dfa, string_dfa]
    survival_list_ := List.replicate 9 false }

/-- The `SetInput(input)`. -/
def SetInput (lx : Lexer) (input : String) : Lexer :=
  { lx with input_ := input.toList, current_pos_ := 0, current_line_ := 1, current_column_ := 1 }

/-- The `Reset()`. -/
def Reset (lx : Lexer) : Lexer :=
  { lx with current_pos_ := 0, current_line_ := 1, current_column_ := 1 }

/-- Whitespace test used throughout `lexer.cpp`. -/
def IsWhitespaceChar (c : Char) : Bool :=
  c = ' ' || c = '\t' || c = '\n' || c = '\r'

/-- The `HasNext()`: skip whitespace from the current position (without mutating)
and report whether input remains. -/
def HasNext (lx : Lexer) : Bool :=
  !((lx.input_.drop lx.current_pos_).dropWhile IsWhitespaceChar).isEmpty

/-- The body of `SkipWhitespace`, fuelled; advances position and the
line/column bookkeeping over leading whitespace. -/
def SkipWhitespaceLoop : Nat → Lexer → Lexer
  | 0, lx => lx
  | fuel + 1, lx =>
    if h : lx.current_pos_ < lx.input_.length then
      let c := lx.input_.get ⟨lx.current_pos_, h⟩
      if IsWhitespaceChar c then
        let lx1 :=
          if c = '\n' then
            { lx with current_line_ := lx.current_line_ + 1, current_column_ := 1 }
          else
            { lx with current_column_ := lx.current_column_ + 1 }
        SkipWhitespaceLoop fuel { lx1 with current_pos_ := lx1.current_pos_ + 1 }
      else lx
    else lx

/-- The `SkipWhitespace()`. -/
def SkipWhitespace (lx : Lexer) : Lexer :=
  SkipWhitespaceLoop (lx.input_.length + 1) lx

/-- The `std::string::operator[]` at an index that may equal `size()`: the
element there is the null character (well defined since C++11). -/
def CharAt (input : List Char) (pos : Nat) : Char :=
  (input.get? pos).getD (Char.ofNat 0)

/-- The inner `for` loop of `GetNextToken`: evaluate the character on every
still-alive automaton in registration order, threading the survival flags,
the latest accepted position and the index of the automaton that produced it
(later automata override earlier ones on simultaneous acceptance).
`none` bubbles up an undefined `Evaluate` (never reached: a surviving
automaton is never dead). -/
def EvalSurvivors (c : Char) (next_pos : Nat) :
    List DeterministicFiniteAutomata → List Bool → Int → Nat → Int → Bool →
    Option (List DeterministicFiniteAutomata × List Bool × Nat × Int × Bool)
  | [], _, _, lap, lad, hs => some ([], [], lap, lad, hs)
  | d :: ds, [], i, lap, lad, hs =>
    match EvalSurvivors c next_pos ds [] (i + 1) lap lad hs with
    | none => none
    | some (ds1, ss1, lap1, lad1, hs1) => some (d :: ds1, false :: ss1, lap1, lad1, hs1)
  | d :: ds, alive :: ss, i, lap, lad, hs =>
    if alive then
      match d.Evaluate c with
      | none => none
      | some (ok, d1) =>
        if !ok then
          match EvalSurvivors c next_pos ds ss (i + 1) lap lad hs with
          | none => none
          | some (ds1, ss1, lap1, lad1, hs1) => some (d1 :: ds1, false :: ss1, lap1, lad1, hs1)
        else
          let lap1 := if d1.IsAccepted then next_pos else lap
          let lad1 := if d1.IsAccepted then i else lad
          match EvalSurvivors c next_pos ds ss (i + 1) lap1 lad1 true with
          | none => none
          | some (ds1, ss1, lap2, lad2, hs1) => some (d1 :: ds1, true :: ss1, lap2, lad2, hs1)
    else
      match EvalSurvivors c next_pos ds ss (i + 1) lap lad hs with
      | none => none
      | some (ds1, ss1, lap1, lad1, hs1) => some (d :: ds1, alive :: ss1, lap1, lad1, hs1)

/-- The `while` loop of `GetNextToken`: consume characters while some
automaton survives, stopping at whitespace unless the string automaton
(index 8) is alive; returns the lexer (with positions and automata advanced),
the latest accepted position and the winning automaton index. -/
def TokenScanLoop : Nat → Lexer → Nat → Int → Bool → Option (Lexer × Nat × Int)
  | 0, _, _, _, _ => none
  | fuel + 1, lx, lap, lad, hs =>
    if h : lx.current_pos_ < lx.input_.length then
      if hs then
        let c := lx.input_.get ⟨lx.current_pos_, h⟩
        if IsWhitespaceChar c && !(lx.survival_list_.getD 8 false) then
          some (lx, lap, lad)
        else
          match EvalSurvivors c (lx.current_pos_ + 1) lx.dfa_list_ lx.survival_list_ 0 lap lad false with
          | none => none
          | some (ds1, ss1, lap1, lad1, hs1) =>
            let lx1 := { lx with dfa_list_ := ds1, survival_list_ := ss1 }
            let lx2 :=
              if c = '\n' then
                { lx1 with current_line_ := lx1.current_line_ + 1, current_column_ := 1 }
              else
                { lx1 with current_column_ := lx1.current_column_ + 1 }
            TokenScanLoop fuel { lx2 with current_pos_ := lx2.current_pos_ + 1 } lap1 lad1 hs1
      else some (lx, lap, lad)
    else some (lx, lap, lad)

/-- The `GetNextToken(token)`: `some (some t, lx)` is a `true` return with the
produced token, `some (none, lx)` a `false` return (end of input, or the
per-character skip of an unmatched character), `none` an undefined
`Evaluate` bubbled up. -/
def GetNextToken (lx0 : Lexer) : Option (Option Token × Lexer) :=
  let lx := lx0.SkipWhitespace
  if lx.current_pos_ ≥ lx.input_.length then some (none, lx)
  else
    let token_start := lx.current_pos_
    let token_start_line := lx.current_line_
    let token_start_column := lx.current_column_
    let lx := { lx with dfa_list_ := lx.dfa_list_.map DeterministicFiniteAutomata.Init,
                        survival_list_ := lx.dfa_list_.map (fun _ => true) }
    match TokenScanLoop (lx.input_.length + 1) lx token_start (-1) true with
    | none => none
    | some (lx1, last_accepted_pos, last_accepted_dfa) =>
      if last_accepted_dfa != -1 then
        match lx1.dfa_list_.get? last_accepted_dfa.toNat with
        | none => none
        | some d =>
          let token_value :=
            String.mk ((lx1.input_.drop token_start).take (last_accepted_pos - token_start))
          some (some { type_ := d.token_class_, value_ := token_value,
                       line_ := token_start_line, column_ := token_start_column },
                { lx1 with current_pos_ := last_accepted_pos })
      else
        -- skip the problematic character (the diagnostic goes to the external sink)
        let c := CharAt lx1.input_ lx1.current_pos_
        let lx2 :=
          if c = '\n' then
            { lx1 with current_line_ := lx1.current_line_ + 1, current_column_ := 1 }
          else
            { lx1 with current_column_ := lx1.current_column_ + 1 }
        some (none, { lx2 with current_pos_ := lx2.current_pos_ + 1 })

/-- The `Next()`: `GetNextToken` packaged as an optional token. -/
def Next (lx : Lexer) : Option (Option Token × Lexer) :=
  lx.GetNextToken

/-- The `while (token_opt.has_value())` loop of `Tokenize`. -/
def TokenizeLoop : Nat → Lexer → List Token → Option (List Token × Lexer)
  | 0, _, _ => none
  | fuel + 1, lx, acc =>
    match lx.Next with
    | none => none
    | some (none, lx1) => some (acc, lx1)
    | some (some t, lx1) => TokenizeLoop fuel lx1 (acc ++ [t])

/-- The `Tokenize(input)`: set the input, then pull tokens until `Next` yields
nothing. Every produced token is nonempty, so the input length bounds the
number of iterations. -/
def Tokenize (lx : Lexer) (input : String) : Option (List Token) :=
  let lx := lx.SetInput input
  (TokenizeLoop (lx.input_.length + 1) lx []).map Prod.fst

end Lexer

/-! ## Shared parser constants (`include/constant/ast_constant.h`) -/

def ROOT_NODE_VALUE : String := "-"
def END_NODE_VALUE : String := "$"

/-- Outcome of a `Parse()` call. `ok root` is a returned `core::AST` holding
`root` as its (possibly null) root node; `fail` is a `nullptr` return after a
diagnostic; `ub` marks a run reaching undefined behaviour in the source
(dereferencing an empty optional, stack underflow, an out-of-range vector
index) — or exhausting the model's fuel, which the generous fuel below makes
unreachable for the inputs appearing in any theorem. -/
inductive ParseOutcome
  | ub
  | fail
  | ok (root : Option ASTNode)

/-- The `std::isdigit` on the C locale for the characters reachable here. -/
def IsDigitChar (c : Char) : Bool :=
  '0' ≤ c && c ≤ '9'

/-- The `std::isalpha` on the C locale. -/
def IsAlphaChar (c : Char) : Bool :=
  ('a' ≤ c && c ≤ 'z') || ('A' ≤ c && c ≤ 'Z')

/-- The `val_[0]` of a `std::string` (the null character at index 0 of an empty
string; all uses below are guarded by an emptiness check). -/
def FirstChar (s : String) : Char :=
  (s.toList.head?).getD (Char.ofNat 0)

/-! ## Predictive parser (`src/parser/ll1_parser.cpp`) -/

namespace LL1Parser

/-- The `terminals_` from `LL1Parser::Init`. -/
def terminals_ : List String :=
  ["identifier", "number", "left_paren", "right_paren", "plus", "times",
   "assign", "semicolon", "$"]

/-- The `IsTerminal(symbol, terminals)`. -/
def IsTerminal (symbol : String) (terminals : List String) : Bool :=
  terminals.contains symbol

/-- The `TokenTypeToParserString(type)`; note there is no case for `STRING`,
which therefore falls into the default empty string. -/
def TokenTypeToParserString : TokenType → String
  | .IDENTIFIER => "identifier"
  | .NUMBER => "number"
  | .LEFT_PAREN => "left_paren"
  | .RIGHT_PAREN => "right_paren"
  | .PLUS => "plus"
  | .TIMES => "times"
  | .ASSIGN => "assign"
  | .SEMICOLON => "semicolon"
  | .END_OF_FILE => "$"
  | _ => ""

/-- The `Term(token, symbol)`. -/
def Term (token : Token) (symbol : String) : Bool :=
  TokenTypeToParserString token.type_ == symbol

/-- The `parse_table_` from `LL1Parser::Init`, verbatim. -/
def parse_table_ : List (String × List (String × List String)) :=
  [("Program",
    [("identifier", ["StatementList"]),
     ("$", ["StatementList"])]),
   ("StatementList",
    [("identifier", ["Statement", "StatementList"]),
     ("$", ["ε"])]),
   ("Statement",
    [("identifier", ["identifier", "assign", "Expression", "semicolon"])]),
   ("Expression",
    [("identifier", ["Term", "Expression\x27"]),
     ("number", ["Term", "Expression\x27"]),
     ("left_paren", ["Term", "Expression\x27"])]),
   ("Expression\x27",
    [("plus", ["plus", "Term", "Expression\x27"]),
     ("semicolon", ["ε"]),
     ("right_paren", ["ε"])]),
   ("Term",
    [("identifier", ["Factor", "Term\x27"]),
     ("number", ["Factor", "Term\x27"]),
     ("left_paren", ["Factor", "Term\x27"])]),
   ("Term\x27",
    [("times", ["times", "Factor", "Term\x27"]),
     ("plus", ["ε"]),
     ("semicolon", ["ε"]),
     ("right_paren", ["ε"])]),
   ("Factor",
    [("identifier", ["identifier"]),
     ("number", ["number"]),
     ("left_paren", ["left_paren", "Expression", "right_paren"])])]

/-- One cell of the parse-tree arena. The source builds the parse tree out of
`shared_ptr<TreeNode>` cells that are mutated (a terminal's label is
overwritten with its lexeme) after being linked into their parent, so the
embedding holds the cells in an allocation-ordered arena and links children
by index; `children_` lists indices front first, exactly the
`std::list`/`push_front` iteration order. -/
structure TreeNodeCell where
  val_ : String
  children_ : List Nat
deriving DecidableEq, Repr

/-- Overwrite a cell's label (`current_tree_node->val_ = ...`). -/
def ArenaSetVal (arena : List TreeNodeCell) (i : Nat) (v : String) : List TreeNodeCell :=
  match arena.get? i with
  | none => arena
  | some cell => arena.set i { cell with val_ := v }

/-- The `AddChild` on an arena cell (`std::list::push_front`). -/
def ArenaAddChildFront (arena : List TreeNodeCell) (parent : Nat) (child : Nat) :
    List TreeNodeCell :=
  match arena.get? parent with
  | none => arena
  | some cell => arena.set parent { cell with children_ := child :: cell.children_ }

/-- Freeze an arena cell into a pure `TreeNode` (children are always
allocated after their parent, so the arena length bounds the depth). -/
def ReadTree : Nat → List TreeNodeCell → Nat → TreeNode
  | 0, _, _ => TreeNode.mk "" []
  | fuel + 1, arena, i =>
    match arena.get? i with
    | none => TreeNode.mk "" []
    | some cell => TreeNode.mk cell.val_ (cell.children_.map (ReadTree fuel arena))

/-- Parser state threaded through the `while` loop of `LL1Parser::Parse`. -/
structure LL1State where
  arena : List TreeNodeCell
  parse_stack_ : List (String × Nat)
  lexer_ : Lexer
  current_token : Token
  token_consumed : Bool

/-- End of loop body classification. -/
inductive LLLoopResult
  | ub
  | fail
  | done (st : LL1State)

/-- The token-pulling prologue of each loop iteration: pull the next token
when the previous one was consumed, substituting the EOF token at end of
input; a `Next` that yields no token is the `FAIL_TO_GET_NEXT_TOKEN` path
(return `nullptr`). -/
def LL1PullToken (st : LL1State) : LLLoopResult ⊕ LL1State :=
  if !st.token_consumed then Sum.inr st
  else if !st.lexer_.HasNext then
    Sum.inr { st with
      current_token := { type_ := TokenType.END_OF_FILE, value_ := END_NODE_VALUE,
                         line_ := 0, column_ := 0 },
      token_consumed := false }
  else
    match st.lexer_.Next with
    | none => Sum.inl LLLoopResult.ub
    | some (none, _) => Sum.inl LLLoopResult.fail
    | some (some t, lx1) =>
        Sum.inr { st with lexer_ := lx1, current_token := t, token_consumed := false }

/-- Expansion of a non-epsilon production: push the symbols in reverse order
(rightmost first), allocating one child cell per symbol and threading it onto
the popped node's children. -/
def LL1PushProduction (arena : List TreeNodeCell) (parent : Nat)
    (stack : List (String × Nat)) (production : List String) :
    List TreeNodeCell × List (String × Nat) :=
  production.reverse.foldl
    (fun (acc : List TreeNodeCell × List (String × Nat)) symbol =>
      let child_idx := acc.1.length
      let arena1 := acc.1 ++ [{ val_ := symbol, children_ := [] }]
      let arena2 := ArenaAddChildFront arena1 parent child_idx
      (arena2, (symbol, child_idx) :: acc.2))
    (arena, stack)

/-- The `while` loop of `LL1Parser::Parse`, fuelled. -/
def LL1Loop : Nat → LL1State → LLLoopResult
  | 0, _ => LLLoopResult.ub
  | fuel + 1, st0 =>
    match st0.parse_stack_ with
    | [] => LLLoopResult.done st0
    | (current_symbol, node_idx) :: rest =>
      if current_symbol = END_NODE_VALUE then LLLoopResult.done st0
      else
        match LL1PullToken st0 with
        | Sum.inl r => r
        | Sum.inr st =>
          if IsTerminal current_symbol terminals_ then
            if Term st.current_token current_symbol then
              LL1Loop fuel { st with
                arena := ArenaSetVal st.arena node_idx st.current_token.value_,
                parse_stack_ := rest,
                token_consumed := true }
            else LLLoopResult.fail
          else
            match SAlistFind? parse_table_ current_symbol with
            | none => LLLoopResult.fail
            | some row =>
              let token_string := TokenTypeToParserString st.current_token.type_
              let production? :=
                match SAlistFind? row token_string with
                | some p => some p
                | none =>
                    if token_string ≠ END_NODE_VALUE then SAlistFind? row END_NODE_VALUE
                    else none
              match production? with
              | none => LLLoopResult.fail
              | some production =>
                if production.length = 1 &&
                    (production.getD 0 "" = "ε" || production.getD 0 "" = "epsilon") then
                  LL1Loop fuel { st with parse_stack_ := rest }
                else
                  let (arena1, stack1) :=
                    LL1PushProduction st.arena node_idx rest production
                  LL1Loop fuel { st with arena := arena1, parse_stack_ := stack1 }

/-- The `CreateTerminalASTNode(symbol)`: leaves for identifier and number keyed
by the grammar symbol, operator markers for plus, times and assign, and
`nullptr` for the purely syntactic terminals. -/
def CreateTerminalASTNode (symbol : String) : Option ASTNode :=
  if symbol = "identifier" then some (ASTNode.mk ASTNodeType.IDENTIFIER symbol [])
  else if symbol = "number" then some (ASTNode.mk ASTNodeType.NUMBER symbol [])
  else if symbol = "plus" then some (ASTNode.mk ASTNodeType.PLUS "+" [])
  else if symbol = "times" then some (ASTNode.mk ASTNodeType.TIMES "*" [])
  else if symbol = "assign" then some (ASTNode.mk ASTNodeType.ASSIGN "<-" [])
  else none

mutual

/-- The `LL1Parser::TransformToASTNode`, on the frozen parse tree. Fuel only
bounds the call depth; every call below passes the predecessor. -/
def TransformToASTNode : Nat → TreeNode → Option ASTNode
  | 0, _ => none
  | fuel + 1, t =>
    let symbol := t.val_
    if IsTerminal symbol terminals_ then CreateTerminalASTNode symbol
    else if symbol = "-" && !t.children_.isEmpty then some (TransformProgram fuel t)
    else if symbol = "Program" then some (TransformProgram fuel t)
    else if symbol = "StatementList" then none
    else if symbol = "Statement" then some (TransformStatement fuel t)
    else if symbol = "Expression" then TransformExpression fuel t
    else if symbol = "Term" then TransformTerm fuel t
    else if symbol = "Factor" then TransformFactor fuel t
    else some (ASTNode.mk ASTNodeType.ROOT symbol
      (t.children_.filterMap (TransformToASTNode fuel)))

/-- The `LL1Parser::TransformProgram`: a `Root` node collecting the statements of
the front child (the `StatementList`). -/
def TransformProgram : Nat → TreeNode → ASTNode
  | 0, _ => ASTNode.mk ASTNodeType.ROOT ROOT_NODE_VALUE []
  | fuel + 1, t =>
    let children :=
      match t.children_.head? with
      | some statement_list_node => CollectStatements fuel statement_list_node
      | none => []
    ASTNode.mk ASTNodeType.ROOT ROOT_NODE_VALUE children

/-- The `LL1Parser::CollectStatements`: statements in child order, recursing into
nested `StatementList` nodes; the result is the list of children appended to
the root. -/
def CollectStatements : Nat → TreeNode → List ASTNode
  | 0, _ => []
  | fuel + 1, t =>
    t.children_.foldl
      (fun acc child =>
        if child.val_ = "Statement" then
          match TransformToASTNode fuel child with
          | some stmt_node => acc ++ [stmt_node]
          | none => acc
        else if child.val_ = "StatementList" then acc ++ CollectStatements fuel child
        else acc)
      []

/-- The `LL1Parser::TransformStatement`: children are visited with a running
index; index 0 supplies the identifier leaf (when it is a leaf), index 2 the
`Expression`; the assign and semicolon children are skipped. Null operands
are silently dropped by the `AddChild` guards. -/
def TransformStatement : Nat → TreeNode → ASTNode
  | 0, _ => ASTNode.mk ASTNodeType.ASSIGN "<-" []
  | fuel + 1, t =>
    let acc := t.children_.foldl
      (fun (acc : Int × Option ASTNode × Option ASTNode) child =>
        let cc := acc.1
        let identifier_node :=
          if cc = 0 && child.children_.isEmpty then
            some (ASTNode.mk ASTNodeType.IDENTIFIER child.val_ [])
          else acc.2.1
        let expression_node :=
          if cc = 2 && child.val_ = "Expression" then TransformToASTNode fuel child
          else acc.2.2
        (cc + 1, identifier_node, expression_node))
      (0, none, none)
    ASTNode.mk ASTNodeType.ASSIGN "<-" (acc.2.1.toList ++ acc.2.2.toList)

/-- The `LL1Parser::TransformExpression`: the `Term` child becomes the left
operand, then the `Expression\x27` child folds the sum chain onto it. -/
def TransformExpression : Nat → TreeNode → Option ASTNode
  | 0, _ => none
  | fuel + 1, t =>
    let acc := t.children_.foldl
      (fun (acc : Option ASTNode × Option ASTNode) child =>
        if child.val_ = "Term" then (TransformToASTNode fuel child, acc.2)
        else if child.val_ = "Expression\x27" then
          (acc.1, TransformExpressionPrime fuel child acc.1)
        else acc)
      (none, none)
    match acc.2 with
    | some expression_prime => some expression_prime
    | none => acc.1

/-- The `LL1Parser::TransformExpressionPrime`: index 0 is the `+` lexeme, index 1
the right `Term`, index 2 the nested `Expression\x27`; the binary node is
built (left associatively) only when operator, left and right are all
present, exactly as the source's null guards dictate. -/
def TransformExpressionPrime : Nat → TreeNode → Option ASTNode → Option ASTNode
  | 0, _, left_operand => left_operand
  | fuel + 1, t, left_operand =>
    if t.children_.isEmpty then left_operand
    else
      let acc := t.children_.foldl
        (fun (acc : Int × Option ASTNode × Option ASTNode × Option ASTNode) child =>
          let cc := acc.1
          if cc = 0 && child.val_ = "+" then
            (cc + 1, some (ASTNode.mk ASTNodeType.PLUS "+" []), acc.2.2.1, acc.2.2.2)
          else if cc = 1 && child.val_ = "Term" then
            (cc + 1, acc.2.1, TransformToASTNode fuel child, acc.2.2.2)
          else if cc = 2 && child.val_ = "Expression\x27" then
            match acc.2.1, left_operand, acc.2.2.1 with
            | some _, some l, some r =>
              let operator_node := ASTNode.mk ASTNodeType.PLUS "+" [l, r]
              (cc + 1, some operator_node, acc.2.2.1,
               TransformExpressionPrime fuel child (some operator_node))
            | _, _, _ => (cc + 1, acc.2.1, acc.2.2.1, acc.2.2.2)
          else (cc + 1, acc.2.1, acc.2.2.1, acc.2.2.2))
        (0, none, none, none)
      match acc.2.2.2 with
      | some rest_expression => some rest_expression
      | none =>
        match acc.2.1 with
        | some operator_node => some operator_node
        | none => left_operand

/-- The `LL1Parser::TransformTerm`: the `Factor` child then the `Term\x27` fold. -/
def TransformTerm : Nat → TreeNode → Option ASTNode
  | 0, _ => none
  | fuel + 1, t =>
    let acc := t.children_.foldl
      (fun (acc : Option ASTNode × Option ASTNode) child =>
        if child.val_ = "Factor" then (TransformToASTNode fuel child, acc.2)
        else if child.val_ = "Term\x27" then
          (acc.1, TransformTermPrime fuel child acc.1)
        else acc)
      (none, none)
    match acc.2 with
    | some term_prime => some term_prime
    | none => acc.1

/-- The `LL1Parser::TransformTermPrime`: the product-chain analogue of
`TransformExpressionPrime`. -/
def TransformTermPrime : Nat → TreeNode → Option ASTNode → Option ASTNode
  | 0, _, left_operand => left_operand
  | fuel + 1, t, left_operand =>
    if t.children_.isEmpty then left_operand
    else
      let acc := t.children_.foldl
        (fun (acc : Int × Option ASTNode × Option ASTNode × Option ASTNode) child =>
          let cc := acc.1
          if cc = 0 && child.val_ = "*" then
            (cc + 1, some (ASTNode.mk ASTNodeType.TIMES "*" []), acc.2.2.1, acc.2.2.2)
          else if cc = 1 && child.val_ = "Factor" then
            (cc + 1, acc.2.1, TransformToASTNode fuel child, acc.2.2.2)
          else if cc = 2 && child.val_ = "Term\x27" then
            match acc.2.1, left_operand, acc.2.2.1 with
            | some _, some l, some r =>
              let operator_node := ASTNode.mk ASTNodeType.TIMES "*" [l, r]
              (cc + 1, some operator_node, acc.2.2.1,
               TransformTermPrime fuel child (some operator_node))
            | _, _, _ => (cc + 1, acc.2.1, acc.2.2.1, acc.2.2.2)
          else (cc + 1, acc.2.1, acc.2.2.1, acc.2.2.2))
        (0, none, none, none)
      match acc.2.2.2 with
      | some rest_term => some rest_term
      | none =>
        match acc.2.1 with
        | some operator_node => some operator_node
        | none => left_operand

/-- The `LL1Parser::TransformFactor`: scan the children for the meaningful one —
an `Expression` child is returned transformed (parentheses unwrap), a
nonempty leaf is classified by its first character (digit, then letter),
anything else is passed over; no match yields `nullptr`. -/
def TransformFactor : Nat → TreeNode → Option ASTNode
  | 0, _ => none
  | fuel + 1, t => TransformFactorScan fuel t.children_

/-- The `for` loop inside `TransformFactor`. -/
def TransformFactorScan : Nat → List TreeNode → Option ASTNode
  | 0, _ => none
  | _, [] => none
  | fuel + 1, child :: rest =>
    if child.val_ = "Expression" then TransformToASTNode fuel child
    else if child.children_.isEmpty && !child.val_.isEmpty then
      let c0 := FirstChar child.val_
      if IsDigitChar c0 then some (ASTNode.mk ASTNodeType.NUMBER child.val_ [])
      else if IsAlphaChar c0 then some (ASTNode.mk ASTNodeType.IDENTIFIER child.val_ [])
      else TransformFactorScan fuel rest
    else TransformFactorScan fuel rest

end

/-- The `LL1Parser::BuildAST`: freeze the parse tree and fold it to the AST root.
The arena length bounds the tree size, and four frames per tree node bound
the transformation call depth. -/
def BuildAST (arena : List TreeNodeCell) (root : Nat) : Option ASTNode :=
  TransformToASTNode (4 * arena.length + 64) (ReadTree (arena.length + 1) arena root)

/-- The `LL1Parser::Parse`: seed the stack with the end marker and the start
symbol, run the loop, then demand the end marker on top and an exhausted
lexer before building the AST from the parse root (arena index 0). -/
def Parse (lexer_ : Lexer) : ParseOutcome :=
  let arena0 : List TreeNodeCell :=
    [{ val_ := ROOT_NODE_VALUE, children_ := [] },
     { val_ := END_NODE_VALUE, children_ := [] }]
  let st0 : LL1State :=
    { arena := arena0
      parse_stack_ := [("Program", 0), (END_NODE_VALUE, 1)]
      lexer_ := lexer_
      current_token := { type_ := TokenType.IDENTIFIER, value_ := "", line_ := 0, column_ := 0 }
      token_consumed := true }
  match LL1Loop (lexer_.input_.length * 50 + 1000) st0 with
  | LLLoopResult.ub => ParseOutcome.ub
  | LLLoopResult.fail => ParseOutcome.fail
  | LLLoopResult.done st =>
    match st.parse_stack_ with
    | [] => ParseOutcome.fail
    | (top, _) :: _ =>
      if top ≠ END_NODE_VALUE then ParseOutcome.fail
      else if st.lexer_.HasNext then ParseOutcome.fail
      else ParseOutcome.ok (BuildAST st.arena 0)

end LL1Parser

/-- The predictive pipeline as driven by `parser.cpp`: construct the parser
(whose constructor runs `Init`), `SetInput`, `Parse`. -/
def LL1Parse (input : String) : ParseOutcome :=
  LL1Parser.Parse (Lexer.new.SetInput input)

/-! ## Shift-reduce parser (`src/parser/slr_parser.cpp`) -/

namespace SLRParser

/-- The `SLRParser::Action::ActionType`. -/
inductive ActionType
  | SHIFT
  | REDUCE
  | ACCEPT
  | REJECT
deriving DecidableEq, Repr

/-- The `SLRParser::Action` with the constructor's default arguments
(`state = 0`, `rhs = {}`, `lhs = {}`). -/
structure Action where
  type_ : ActionType
  state_ : Int := 0
  rhs_ : List String := []
  lhs_ : String := ""
deriving DecidableEq, Repr

/-- The `terminals_` from `SLRParser::Init` (the same set as the predictive
parser's). -/
def terminals_ : List String :=
  ["identifier", "number", "left_paren", "right_paren", "plus", "times",
   "assign", "semicolon", "$"]

/-- The `SLRParser::TokenTypeToString`; again no `STRING` case, so that kind
falls to the default empty string. -/
def TokenTypeToString : TokenType → String
  | .IDENTIFIER => "identifier"
  | .NUMBER => "number"
  | .PLUS => "plus"
  | .TIMES => "times"
  | .LEFT_PAREN => "left_paren"
  | .RIGHT_PAREN => "right_paren"
  | .ASSIGN => "assign"
  | .SEMICOLON => "semicolon"
  | .END_OF_FILE => "$"
  | _ => ""

/-- The `goto_table_` from `SLRParser::Init`, verbatim. -/
def goto_table_ : List (Int × List (String × Int)) :=
  [(0, [("Program", 1), ("StatementList", 2), ("Statement", 3)]),
   (2, [("Statement", 4), ("StatementList", 5)]),
   (3, [("Statement", 4), ("StatementList", 5)]),
   (4, [("Statement", 4), ("StatementList", 5)]),
   (6, [("Expression", 8), ("Term", 9), ("Factor", 10)]),
   (8, [("Term", 11)]),
   (9, [("Factor", 12)]),
   (11, [("Factor", 12)]),
   (13, [("Expression", 14), ("Term", 9), ("Factor", 10)]),
   (18, [("Term", 11), ("Factor", 10)]),
   (19, [("Factor", 12)])]

/-- The `action_table_` from `SLRParser::Init`, verbatim. -/
def action_table_ : List (Int × List (String × Action)) :=
  [(0, [("identifier", { type_ := ActionType.SHIFT, state_ := 7 }),
        ("$", { type_ := ActionType.REDUCE, rhs_ := [], lhs_ := "StatementList" })]),
   (1, [("$", { type_ := ActionType.ACCEPT })]),
   (2, [("$", { type_ := ActionType.REDUCE, rhs_ := ["StatementList"], lhs_ := "Program" })]),
   (3, [("identifier", { type_ := ActionType.SHIFT, state_ := 7 }),
        ("$", { type_ := ActionType.REDUCE, rhs_ := [], lhs_ := "StatementList" })]),
   (4, [("identifier", { type_ := ActionType.SHIFT, state_ := 7 }),
        ("$", { type_ := ActionType.REDUCE, rhs_ := [], lhs_ := "StatementList" })]),
   (5, [("identifier",
         { type_ := ActionType.REDUCE, rhs_ := ["Statement", "StatementList"],
           lhs_ := "StatementList" }),
        ("$",
         { type_ := ActionType.REDUCE, rhs_ := ["Statement", "StatementList"],
           lhs_ := "StatementList" })]),
   (6, [("identifier", { type_ := ActionType.SHIFT, state_ := 15 }),
        ("number", { type_ := ActionType.SHIFT, state_ := 16 }),
        ("left_paren", { type_ := ActionType.SHIFT, state_ := 13 })]),
   (7, [("assign", { type_ := ActionType.SHIFT, state_ := 6 })]),
   (8, [("semicolon", { type_ := ActionType.SHIFT, state_ := 17 }),
        ("plus", { type_ := ActionType.SHIFT, state_ := 18 })]),
   (9, [("semicolon", { type_ := ActionType.REDUCE, rhs_ := ["Term"], lhs_ := "Expression" }),
        ("right_paren", { type_ := ActionType.REDUCE, rhs_ := ["Term"], lhs_ := "Expression" }),
        ("plus", { type_ := ActionType.REDUCE, rhs_ := ["Term"], lhs_ := "Expression" }),
        ("times", { type_ := ActionType.SHIFT, state_ := 19 })]),
   (10, [("semicolon", { type_ := ActionType.REDUCE, rhs_ := ["Factor"], lhs_ := "Term" }),
         ("right_paren", { type_ := ActionType.REDUCE, rhs_ := ["Factor"], lhs_ := "Term" }),
         ("plus", { type_ := ActionType.REDUCE, rhs_ := ["Factor"], lhs_ := "Term" }),
         ("times", { type_ := ActionType.REDUCE, rhs_ := ["Factor"], lhs_ := "Term" })]),
   (11, [("semicolon",
          { type_ := ActionType.REDUCE, rhs_ := ["Expression", "plus", "Term"],
            lhs_ := "Expression" }),
         ("right_paren",
          { type_ := ActionType.REDUCE, rhs_ := ["Expression", "plus", "Term"],
            lhs_ := "Expression" }),
         ("plus",
          { type_ := ActionType.REDUCE, rhs_ := ["Expression", "plus", "Term"],
            lhs_ := "Expression" }),
         ("times", { type_ := ActionType.SHIFT, state_ := 19 })]),
   (12, [("semicolon",
          { type_ := ActionType.REDUCE, rhs_ := ["Term", "times", "Factor"], lhs_ := "Term" }),
         ("right_paren",
          { type_ := ActionType.REDUCE, rhs_ := ["Term", "times", "Factor"], lhs_ := "Term" }),
         ("plus",
          { type_ := ActionType.REDUCE, rhs_ := ["Term", "times", "Factor"], lhs_ := "Term" }),
         ("times",
          { type_ := ActionType.REDUCE, rhs_ := ["Term", "times", "Factor"], lhs_ := "Term" })]),
   (13, [("identifier", { type_ := ActionType.SHIFT, state_ := 15 }),
         ("number", { type_ := ActionType.SHIFT, state_ := 16 }),
         ("left_paren", { type_ := ActionType.SHIFT, state_ := 13 })]),
   (14, [("right_paren", { type_ := ActionType.SHIFT, state_ := 20 }),
         ("plus", { type_ := ActionType.SHIFT, state_ := 18 })]),
   (15, [("semicolon", { type_ := ActionType.REDUCE, rhs_ := ["identifier"], lhs_ := "Factor" }),
         ("right_paren", { type_ := ActionType.REDUCE, rhs_ := ["identifier"], lhs_ := "Factor" }),
         ("plus", { type_ := ActionType.REDUCE, rhs_ := ["identifier"], lhs_ := "Factor" }),
         ("times", { type_ := ActionType.REDUCE, rhs_ := ["identifier"], lhs_ := "Factor" })]),
   (16, [("semicolon", { type_ := ActionType.REDUCE, rhs_ := ["number"], lhs_ := "Factor" }),
         ("right_paren", { type_ := ActionType.REDUCE, rhs_ := ["number"], lhs_ := "Factor" }),
         ("plus", { type_ := ActionType.REDUCE, rhs_ := ["number"], lhs_ := "Factor" }),
         ("times", { type_ := ActionType.REDUCE, rhs_ := ["number"], lhs_ := "Factor" })]),
   (17, [("identifier",
          { type_ := ActionType.REDUCE,
            rhs_ := ["identifier", "assign", "Expression", "semicolon"],
            lhs_ := "Statement" }),
         ("$",
          { type_ := ActionType.REDUCE,
            rhs_ := ["identifier", "assign", "Expression", "semicolon"],
            lhs_ := "Statement" })]),
   (18, [("identifier", { type_ := ActionType.SHIFT, state_ := 15 }),
         ("number", { type_ := ActionType.SHIFT, state_ := 16 }),
         ("left_paren", { type_ := ActionType.SHIFT, state_ := 13 })]),
   (19, [("identifier", { type_ := ActionType.SHIFT, state_ := 15 }),
         ("number", { type_ := ActionType.SHIFT, state_ := 16 }),
         ("left_paren", { type_ := ActionType.SHIFT, state_ := 13 })]),
   (20, [("semicolon",
          { type_ := ActionType.REDUCE,
            rhs_ := ["left_paren", "Expression", "right_paren"], lhs_ := "Factor" }),
         ("right_paren",
          { type_ := ActionType.REDUCE,
            rhs_ := ["left_paren", "Expression", "right_paren"], lhs_ := "Factor" }),
         ("plus",
          { type_ := ActionType.REDUCE,
            rhs_ := ["left_paren", "Expression", "right_paren"], lhs_ := "Factor" }),
         ("times",
          { type_ := ActionType.REDUCE,
            rhs_ := ["left_paren", "Expression", "right_paren"], lhs_ := "Factor" })])]

/-- The shift-reduce stack: symbol label, tree node (null for the seeded
bottom entry) and state; head is the top. -/
structure SLRState where
  slr_stack_ : List (String × Option TreeNode × Int)
  lexer_ : Lexer

/-- One `REDUCE` step: pop as many entries as the right-hand side is long,
rebuild their nodes as children in reverse pop order (`push_front`), consult
the goto table beneath the popped entries and push the new node. `Sum.inl`
carries an early exit: `fail` for a missing goto entry, `ub` for a stack
underflow (`top`/`pop` on an empty `std::stack`) or for a reduce that
collects the null bottom sentinel into a node (the transforms would then
dereference a null child). -/
def SLRReduce (st : SLRState) (action_to_take : Action) : ParseOutcome ⊕ SLRState :=
  let n := action_to_take.rhs_.length
  if n ≤ st.slr_stack_.length then
    let child_nodes := (st.slr_stack_.take n).map (fun e => e.2.1)
    let stack1 := st.slr_stack_.drop n
    if child_nodes.any (fun c => c.isNone) then Sum.inl ParseOutcome.ub
    else
      let children :=
        (child_nodes.filterMap id).reverse.foldl (fun acc c => c :: acc) []
      let reduce_node := TreeNode.mk action_to_take.lhs_ children
      match stack1.head? with
      | none => Sum.inl ParseOutcome.ub
      | some (_, _, top_state) =>
        match IAlistFind? goto_table_ top_state with
        | none => Sum.inl ParseOutcome.fail
        | some row =>
          match SAlistFind? row action_to_take.lhs_ with
          | none => Sum.inl ParseOutcome.fail
          | some new_state =>
            Sum.inr { st with
              slr_stack_ := (action_to_take.lhs_, some reduce_node, new_state) :: stack1 }
  else Sum.inl ParseOutcome.ub

/-- The `SLRParser::IsTerminal`. -/
def IsTerminal (symbol : String) (terminals : List String) : Bool :=
  terminals.contains symbol

/-- The `SLRParser::CreateTerminalASTNode` (textually identical to the
predictive parser's helper). -/
def CreateTerminalASTNode (symbol : String) : Option ASTNode :=
  if symbol = "identifier" then some (ASTNode.mk ASTNodeType.IDENTIFIER symbol [])
  else if symbol = "number" then some (ASTNode.mk ASTNodeType.NUMBER symbol [])
  else if symbol = "plus" then some (ASTNode.mk ASTNodeType.PLUS "+" [])
  else if symbol = "times" then some (ASTNode.mk ASTNodeType.TIMES "*" [])
  else if symbol = "assign" then some (ASTNode.mk ASTNodeType.ASSIGN "<-" [])
  else none

mutual

/-- The `SLRParser::TransformToASTNode` (the shift-reduce parser builds its parse
tree bottom-up, so the nodes are pure values here). -/
def TransformToASTNode : Nat → TreeNode → Option ASTNode
  | 0, _ => none
  | fuel + 1, t =>
    let symbol := t.val_
    if IsTerminal symbol terminals_ then CreateTerminalASTNode symbol
    else if symbol = "-" && !t.children_.isEmpty then some (TransformProgram fuel t)
    else if symbol = "Program" then some (TransformProgram fuel t)
    else if symbol = "StatementList" then none
    else if symbol = "Statement" then some (TransformStatement fuel t)
    else if symbol = "Expression" then TransformExpression fuel t
    else if symbol = "Term" then TransformTerm fuel t
    else if symbol = "Factor" then TransformFactor fuel t
    else some (ASTNode.mk ASTNodeType.ROOT symbol
      (t.children_.filterMap (TransformToASTNode fuel)))

/-- The `SLRParser::TransformProgram`. -/
def TransformProgram : Nat → TreeNode → ASTNode
  | 0, _ => ASTNode.mk ASTNodeType.ROOT ROOT_NODE_VALUE []
  | fuel + 1, t =>
    let children :=
      match t.children_.head? with
      | some statement_list_node => CollectStatements fuel statement_list_node
      | none => []
    ASTNode.mk ASTNodeType.ROOT ROOT_NODE_VALUE children

/-- The `SLRParser::CollectStatements`: the children sit in reverse order
(`StatementList` before `Statement`), so the loop runs over the reversed
vector to restore program order. -/
def CollectStatements : Nat → TreeNode → List ASTNode
  | 0, _ => []
  | fuel + 1, t =>
    t.children_.reverse.foldl
      (fun acc child =>
        if child.val_ = "Statement" then
          match TransformToASTNode fuel child with
          | some stmt_node => acc ++ [stmt_node]
          | none => acc
        else if child.val_ = "StatementList" then acc ++ CollectStatements fuel child
        else acc)
      []

/-- The `SLRParser::TransformStatement`: children arrive in reverse production
order (semicolon, Expression, assign, identifier), so index 3 supplies the
identifier leaf and index 1 the `Expression`. -/
def TransformStatement : Nat → TreeNode → ASTNode
  | 0, _ => ASTNode.mk ASTNodeType.ASSIGN "<-" []
  | fuel + 1, t =>
    let acc := t.children_.foldl
      (fun (acc : Int × Option ASTNode × Option ASTNode) child =>
        let cc := acc.1
        let identifier_node :=
          if cc = 3 && child.children_.isEmpty then
            some (ASTNode.mk ASTNodeType.IDENTIFIER child.val_ [])
          else acc.2.1
        let expression_node :=
          if cc = 1 && child.val_ = "Expression" then TransformToASTNode fuel child
          else acc.2.2
        (cc + 1, identifier_node, expression_node))
      (0, none, none)
    ASTNode.mk ASTNodeType.ASSIGN "<-" (acc.2.1.toList ++ acc.2.2.toList)

/-- The `SLRParser::TransformExpression`: one child is `Expression -> Term`;
three children are the reversed `Expression plus Term`, so the front child is
the right `Term` and the back child the left `Expression`; null operands are
dropped by the `AddChild` guards. -/
def TransformExpression : Nat → TreeNode → Option ASTNode
  | 0, _ => none
  | fuel + 1, t =>
    if t.children_.length = 1 then
      match t.children_.head? with
      | some term_node => TransformToASTNode fuel term_node
      | none => none
    else if t.children_.length = 3 then
      let right_term :=
        match t.children_.get? 0 with
        | some c => TransformToASTNode fuel c
        | none => none
      let left_expr :=
        match t.children_.get? 2 with
        | some c => TransformToASTNode fuel c
        | none => none
      some (ASTNode.mk ASTNodeType.PLUS "+" (left_expr.toList ++ right_term.toList))
    else none

/-- The `SLRParser::TransformTerm`: the product analogue of
`TransformExpression`. -/
def TransformTerm : Nat → TreeNode → Option ASTNode
  | 0, _ => none
  | fuel + 1, t =>
    if t.children_.length = 1 then
      match t.children_.head? with
      | some factor_node => TransformToASTNode fuel factor_node
      | none => none
    else if t.children_.length = 3 then
      let right_factor :=
        match t.children_.get? 0 with
        | some c => TransformToASTNode fuel c
        | none => none
      let left_term :=
        match t.children_.get? 2 with
        | some c => TransformToASTNode fuel c
        | none => none
      some (ASTNode.mk ASTNodeType.TIMES "*" (left_term.toList ++ right_factor.toList))
    else none

/-- The `SLRParser::TransformFactor` (textually identical to the predictive
parser's). -/
def TransformFactor : Nat → TreeNode → Option ASTNode
  | 0, _ => none
  | fuel + 1, t => TransformFactorScan fuel t.children_

/-- The `for` loop inside `TransformFactor`. -/
def TransformFactorScan : Nat → List TreeNode → Option ASTNode
  | 0, _ => none
  | _, [] => none
  | fuel + 1, child :: rest =>
    if child.val_ = "Expression" then TransformToASTNode fuel child
    else if child.children_.isEmpty && !child.val_.isEmpty then
      let c0 := FirstChar child.val_
      if IsDigitChar c0 then some (ASTNode.mk ASTNodeType.NUMBER child.val_ [])
      else if IsAlphaChar c0 then some (ASTNode.mk ASTNodeType.IDENTIFIER child.val_ [])
      else TransformFactorScan fuel rest
    else TransformFactorScan fuel rest

end

/-- The `SLRParser::BuildAST` on a (non-null) parse tree. -/
def BuildAST (fuel : Nat) (parse_tree : TreeNode) : Option ASTNode :=
  TransformToASTNode fuel parse_tree

/-- Transformation fuel: the scan length bounds the token count, tokens bound
the parse-tree size, and a constant number of frames per node bounds the
call depth. -/
def TransformFuel (lx : Lexer) : Nat :=
  lx.input_.length * 20 + 64

mutual

/-- The outer `while (true)` loop of `SLRParser::Parse`: pull the next token
while the lexer has one, otherwise run the end-of-input actions. A `Next`
yielding no token is dereferenced unchecked in the source
(`token->GetValue()` on an empty `std::optional`): undefined behaviour. -/
def SLRLoop : Nat → SLRState → ParseOutcome
  | 0, _ => ParseOutcome.ub
  | fuel + 1, st =>
    if st.lexer_.HasNext then
      match st.lexer_.Next with
      | none => ParseOutcome.ub
      | some (none, _) => ParseOutcome.ub
      | some (some token, lx1) =>
        let terminal_node := TreeNode.mk token.value_ []
        let token_value := TokenTypeToString token.type_
        SLRInner fuel { st with lexer_ := lx1 } terminal_node token_value
    else
      match st.slr_stack_.head? with
      | none => ParseOutcome.ub
      | some (_, _, current_state) =>
        match IAlistFind? action_table_ current_state with
        | none => ParseOutcome.fail
        | some row =>
          match SAlistFind? row END_NODE_VALUE with
          | none => ParseOutcome.fail
          | some action_to_take =>
            match action_to_take.type_ with
            | ActionType.ACCEPT =>
              match st.slr_stack_.head? with
              | some (_, some program_node, _) =>
                ParseOutcome.ok (BuildAST (TransformFuel st.lexer_) program_node)
              | some (_, none, _) => ParseOutcome.fail
              | none => ParseOutcome.ub
            | ActionType.REDUCE =>
              match SLRReduce st action_to_take with
              | Sum.inl r => r
              | Sum.inr st1 => SLRLoop fuel st1
            | _ => ParseOutcome.fail

/-- The inner `while (!to_next)` loop: apply actions for the pending token
until it is shifted. `ACCEPT` here returns the AST built from the dummy root
node created at the start of `Parse` (label `-`, no children); `REJECT` only
prints, so the loop would spin forever (modelled by fuel exhaustion, and
unreachable: no table entry is `REJECT`). -/
def SLRInner : Nat → SLRState → TreeNode → String → ParseOutcome
  | 0, _, _, _ => ParseOutcome.ub
  | fuel + 1, st, terminal_node, token_value =>
    match st.slr_stack_.head? with
    | none => ParseOutcome.ub
    | some (_, _, current_state) =>
      match IAlistFind? action_table_ current_state with
      | none => ParseOutcome.fail
      | some row =>
        match SAlistFind? row token_value with
        | none => ParseOutcome.fail
        | some action_to_take =>
          match action_to_take.type_ with
          | ActionType.SHIFT =>
            SLRLoop fuel { st with
              slr_stack_ :=
                (token_value, some terminal_node, action_to_take.state_) :: st.slr_stack_ }
          | ActionType.REDUCE =>
            match SLRReduce st action_to_take with
            | Sum.inl r => r
            | Sum.inr st1 => SLRInner fuel st1 terminal_node token_value
          | ActionType.ACCEPT =>
            ParseOutcome.ok
              (BuildAST (TransformFuel st.lexer_) (TreeNode.mk ROOT_NODE_VALUE []))
          | ActionType.REJECT => SLRInner fuel st terminal_node token_value

end

/-- The `SLRParser::Parse`: reset the lexer and run the loop from the stack
seeded by `Init` (the `-` sentinel with state 0 and a null node). -/
def Parse (lexer_ : Lexer) : ParseOutcome :=
  let lx := lexer_.Reset
  SLRLoop (lx.input_.length * 50 + 1000)
    { slr_stack_ := [(ROOT_NODE_VALUE, none, 0)], lexer_ := lx }

end SLRParser

/-- The shift-reduce pipeline as driven by `scpc.cpp`: construct the parser
(whose constructor runs `Init`), `SetInput`, `Parse`. -/
def SLRParse (input : String) : ParseOutcome :=
  SLRParser.Parse (Lexer.new.SetInput input)

/-! ## Equality checking for parse outcomes

`ASTNode` is a nested inductive, for which the `DecidableEq` deriving
handler is unavailable; a fuelled boolean comparison with a soundness lemma
lets the kernel evaluate concrete parse results. -/

mutual

def ASTNode.beq : Nat → ASTNode → ASTNode → Bool
  | 0, _, _ => false
  | fuel + 1, ASTNode.mk t1 v1 c1, ASTNode.mk t2 v2 c2 =>
    t1 == t2 && v1 == v2 && ASTNode.beqList fuel c1 c2

def ASTNode.beqList : Nat → List ASTNode → List ASTNode → Bool
  | _, [], [] => true
  | fuel + 1, a :: as, b :: bs => ASTNode.beq fuel a b && ASTNode.beqList fuel as bs
  | _, _, _ => false

end

def OptBeq (fuel : Nat) : Option ASTNode → Option ASTNode → Bool
  | none, none => true
  | some a, some b => ASTNode.beq fuel a b
  | _, _ => false

def ParseOutcome.beq (fuel : Nat) : ParseOutcome → ParseOutcome → Bool
  | ParseOutcome.ub, ParseOutcome.ub => true
  | ParseOutcome.fail, ParseOutcome.fail => true
  | ParseOutcome.ok a, ParseOutcome.ok b => OptBeq fuel a b
  | _, _ => false

theorem ASTNode.beq_sound_all (fuel : Nat) :
    (∀ a b, ASTNode.beq fuel a b = true → a = b) ∧
    (∀ as bs, ASTNode.beqList fuel as bs = true → as = bs) := by
  induction fuel with
  | zero =>
    constructor
    · intro a b h; cases a; cases b; simp [ASTNode.beq] at h
    · intro as bs h; cases as <;> cases bs <;> simp_all [ASTNode.beqList]
  | succ fuel ih =>
    constructor
    · intro a b h
      cases a with
      | mk t1 v1 c1 =>
        cases b with
        | mk t2 v2 c2 =>
          simp only [ASTNode.beq, Bool.and_eq_true, beq_iff_eq] at h
          obtain ⟨⟨ht, hv⟩, hc⟩ := h
          rw [ht, hv, ih.2 c1 c2 hc]
    · intro as bs h
      cases as with
      | nil =>
        cases bs with
        | nil => rfl
        | cons b bs => simp [ASTNode.beqList] at h
      | cons a as =>
        cases bs with
        | nil => simp [ASTNode.beqList] at h
        | cons b bs =>
          simp only [ASTNode.beqList, Bool.and_eq_true] at h
          rw [ih.1 a b h.1, ih.2 as bs h.2]

theorem ParseOutcome.beq_sound (fuel : Nat) (a b : ParseOutcome) :
    ParseOutcome.beq fuel a b = true → a = b := by
  intro h
  cases a <;> cases b <;> simp_all [ParseOutcome.beq]
  case ok.ok x y =>
    cases x <;> cases y <;> simp_all [OptBeq]
    case some.some u v => exact (ASTNode.beq_sound_all fuel).1 u v h

/-! ## Statement abbreviations

Shorthand constructors for expected AST values in the theorems below; they
unfold to the plain `ASTNode.mk` forms. -/

def idN (s : String) : ASTNode := ASTNode.mk ASTNodeType.IDENTIFIER s []

def numN (s : String) : ASTNode := ASTNode.mk ASTNodeType.NUMBER s []

def plusN (l r : ASTNode) : ASTNode := ASTNode.mk ASTNodeType.PLUS "+" [l, r]

def timesN (l r : ASTNode) : ASTNode := ASTNode.mk ASTNodeType.TIMES "*" [l, r]

def assignN (cs : List ASTNode) : ASTNode := ASTNode.mk ASTNodeType.ASSIGN "<-" cs

def rootN (cs : List ASTNode) : ASTNode := ASTNode.mk ASTNodeType.ROOT "-" cs

/-- The `core::AST::ASTNode::GetChildren`. -/
def ASTNode.children_ : ASTNode → List ASTNode
  | ASTNode.mk _ _ cs => cs

/-- The `core::AST::ASTNode::GetType`. -/
def ASTNode.type_ : ASTNode → ASTNodeType
  | ASTNode.mk t _ _ => t

/-! ## Claim theorems -/

/-- C2: parsing `a <- b + c * d;` with either strategy yields
`Assign(Identifier(a), Plus(Identifier(b), Times(Identifier(c),
Identifier(d))))` under the root, and on `x <- a + b * c;` the `Term`
product chain `b * c` is fully folded before becoming the right operand of
the sum — `Plus(a, Times(b, c))` — again with both strategies. -/
theorem c2_precedence_both_strategies :
    LL1Parse "a <- b + c * d;" =
      ParseOutcome.ok (some (rootN [assignN
        [idN "a", plusN (idN "b") (timesN (idN "c") (idN "d"))]])) ∧
    SLRParse "a <- b + c * d;" =
      ParseOutcome.ok (some (rootN [assignN
        [idN "a", plusN (idN "b") (timesN (idN "c") (idN "d"))]])) ∧
    LL1Parse "x <- a + b * c;" =
      ParseOutcome.ok (some (rootN [assignN
        [idN "x", plusN (idN "a") (timesN (idN "b") (idN "c"))]])) ∧
    SLRParse "x <- a + b * c;" =
      ParseOutcome.ok (some (rootN [assignN
        [idN "x", plusN (idN "a") (timesN (idN "b") (idN "c"))]])) :=
  ⟨ParseOutcome.beq_sound 1000 _ _ (by decide!),
   ParseOutcome.beq_sound 1000 _ _ (by decide!),
   ParseOutcome.beq_sound 1000 _ _ (by decide!),
   ParseOutcome.beq_sound 1000 _ _ (by decide!)⟩

/-- C8: tokenizing `<-` yields exactly one token, of kind `ASSIGN` with
lexeme `<-` (at line 1, column 1): the scanner survives past the failed
single-character prefix `<` and commits to the two-character match. -/
theorem c8_maximal_munch_assign :
    Lexer.new.Tokenize "<-" =
      some [{ type_ := TokenType.ASSIGN, value_ := "<-", line_ := 1, column_ := 1 }] := by
  decide!

/-- C6 (refuted as stated — the code stops): `Tokenize "a # b"` returns only
the token before the unmatched `#`; the tokens after the bad character are
lost, because the `while (token_opt.has_value())` loop of `Tokenize` treats
the `none` produced by the per-character skip as end of input. The third
conjunct shows the skip itself does recover: a further `Next` on the lexer
state after the failed attempt still yields the `b` token, so the loss is in
`Tokenize`'s loop, not in `GetNextToken`. -/
theorem c6_tokenize_stops_at_first_bad_char :
    Lexer.new.Tokenize "a # b" =
      some [{ type_ := TokenType.IDENTIFIER, value_ := "a", line_ := 1, column_ := 1 }] ∧
    ((Lexer.new.SetInput "a # b").Next.bind (fun p1 =>
      p1.2.Next.bind (fun p2 => p2.2.Next))).map Prod.fst =
      some (some { type_ := TokenType.IDENTIFIER, value_ := "b", line_ := 1, column_ := 5 }) := by
  constructor
  · decide!
  · decide!

/-- C4 (refuted as stated — both parsers reject): the lexer does produce a
`STRING` token for the literal, but `msg <- "hello";` is rejected by both
strategies, because neither parse table has entries for the `string`
terminal and both `TokenTypeToString` translations map `STRING` to the empty
string. -/
theorem c4_string_literal_rejected_by_both :
    Lexer.new.Tokenize "msg <- \"hello\";" =
      some [{ type_ := TokenType.IDENTIFIER, value_ := "msg", line_ := 1, column_ := 1 },
            { type_ := TokenType.ASSIGN, value_ := "<-", line_ := 1, column_ := 5 },
            { type_ := TokenType.STRING, value_ := "\"hello\"", line_ := 1, column_ := 8 },
            { type_ := TokenType.SEMICOLON, value_ := ";", line_ := 1, column_ := 16 }] ∧
    LL1Parse "msg <- \"hello\";" = ParseOutcome.fail ∧
    SLRParse "msg <- \"hello\";" = ParseOutcome.fail :=
  ⟨by decide!,
   ParseOutcome.beq_sound 1000 _ _ (by decide!),
   ParseOutcome.beq_sound 1000 _ _ (by decide!)⟩

/-- C5 (refuted as stated — the arity invariant breaks): on `a <- _x;`,
whose right-hand identifier starts with an underscore, both parsers return
an AST whose `Assign` node has exactly one child (the left identifier): both
`TransformFactor` implementations classify a leaf by `isdigit`/`isalpha` of
its first character, return null for `_x`, and the null expression operand
is silently dropped. -/
theorem c5_assign_arity_broken_by_underscore :
    LL1Parse "a <- _x;" = ParseOutcome.ok (some (rootN [assignN [idN "a"]])) ∧
    SLRParse "a <- _x;" = ParseOutcome.ok (some (rootN [assignN [idN "a"]])) ∧
    (assignN [idN "a"]).children_.length = 1 :=
  ⟨ParseOutcome.beq_sound 1000 _ _ (by decide!),
   ParseOutcome.beq_sound 1000 _ _ (by decide!),
   rfl⟩

/-- C7 (refuted as stated — the trailing token is accepted): on
`a <- b; )`, the predictive parser pulls the `)` as lookahead, resolves
`StatementList` through the end-marker fallback entry to epsilon, empties
its stack, and then finds `lexer_.HasNext()` false — the buffered `)` was
already consumed from the lexer — so `Parse` returns the one-statement AST
instead of rejecting the leftover input. -/
theorem c7_trailing_token_accepted :
    LL1Parse "a <- b; )" =
      ParseOutcome.ok (some (rootN [assignN [idN "a", idN "b"]])) :=
  ParseOutcome.beq_sound 1000 _ _ (by decide!)

/-- C3 (refuted as stated — the shift-reduce parser reaches undefined
behaviour): `a <-` and `<- 1;` fail cleanly in both parsers, and `a < 1;`
fails cleanly in the predictive parser (which checks the empty optional and
returns null), but the shift-reduce parser dereferences the empty optional
returned by `Next` after the lexer skips the unmatched `<`
(`token->GetValue()`), which is undefined behaviour, not a clean no-AST
return. -/
theorem c3_invalid_inputs_behaviour :
    LL1Parse "a <-" = ParseOutcome.fail ∧
    LL1Parse "<- 1;" = ParseOutcome.fail ∧
    LL1Parse "a < 1;" = ParseOutcome.fail ∧
    SLRParse "a <-" = ParseOutcome.fail ∧
    SLRParse "<- 1;" = ParseOutcome.fail ∧
    SLRParse "a < 1;" = ParseOutcome.ub :=
  ⟨ParseOutcome.beq_sound 1000 _ _ (by decide!),
   ParseOutcome.beq_sound 1000 _ _ (by decide!),
   ParseOutcome.beq_sound 1000 _ _ (by decide!),
   ParseOutcome.beq_sound 1000 _ _ (by decide!),
   ParseOutcome.beq_sound 1000 _ _ (by decide!),
   ParseOutcome.beq_sound 1000 _ _ (by decide!)⟩

/-- C1 (refuted as stated — the strategies disagree): on the syntactically
valid program `a <- _x + b;` both parsers succeed, but the predictive
parser's AST carries a childless `Plus` node while the shift-reduce parser's
`Plus` keeps the right operand `b`: both `TransformFactor`s drop the
underscore-initial identifier `_x`, and the two builders then degrade
differently (the predictive builder's guard suppresses both `AddChild`
calls, the shift-reduce builder's guards drop only the null side). -/
theorem c1_parsers_disagree_on_underscore_operand :
    LL1Parse "a <- _x + b;" =
      ParseOutcome.ok (some (rootN [assignN
        [idN "a", ASTNode.mk ASTNodeType.PLUS "+" []]])) ∧
    SLRParse "a <- _x + b;" =
      ParseOutcome.ok (some (rootN [assignN
        [idN "a", ASTNode.mk ASTNodeType.PLUS "+" [idN "b"]]])) ∧
    LL1Parse "a <- _x + b;" ≠ SLRParse "a <- _x + b;" := by
  have h1 : LL1Parse "a <- _x + b;" =
      ParseOutcome.ok (some (rootN [assignN
        [idN "a", ASTNode.mk ASTNodeType.PLUS "+" []]])) :=
    ParseOutcome.beq_sound 1000 _ _ (by decide!)
  have h2 : SLRParse "a <- _x + b;" =
      ParseOutcome.ok (some (rootN [assignN
        [idN "a", ASTNode.mk ASTNodeType.PLUS "+" [idN "b"]]])) :=
    ParseOutcome.beq_sound 1000 _ _ (by decide!)
  refine ⟨h1, h2, ?_⟩
  rw [h1, h2]
  simp [rootN, assignN, idN]

/-- C9 (refuted as stated): after a released automaton's `Evaluate` reports
failure on `a` (not a digit), a subsequent `Evaluate` on the in-alphabet
symbol `1` does not report failure — it is the undefined out-of-range vector
index `states_transition_released_[-1]` (the `none` of the embedding), so
the dead automaton does not safely fail on every subsequent call. -/
theorem c9_dead_evaluate_counterexample :
    (Lexer.number_dfa.Init.Evaluate 'a').map Prod.fst = some false ∧
    (Lexer.number_dfa.Init.Evaluate 'a').bind (fun p => p.2.Evaluate '1') = none := by
  constructor
  · decide!
  · decide!

/-- C9 (amended): after any failing `Evaluate` on a released automaton whose
final-state set does not contain the dead marker `-1`, the automaton is dead
(`current_state_ = -1`), `IsAccepted` returns `false`, and a subsequent
`Evaluate` on a symbol outside the alphabet reports failure and leaves the
automaton dead — but a subsequent `Evaluate` on an in-alphabet symbol is the
undefined out-of-range table access, not a failure report. -/
theorem c9_dead_state_amended (d d1 : DeterministicFiniteAutomata) (c : Char)
    (hrel : d.released_ = true)
    (hfin : d.final_states_.contains (-1) = false)
    (heval : d.Evaluate c = some (false, d1)) :
    d1.current_state_ = -1 ∧
    d1.IsAccepted = false ∧
    (∀ c2, AlistFind? d1.alphabet_ c2 = none →
      d1.Evaluate c2 = some (false, { d1 with current_state_ := -1 })) ∧
    (∀ c2, (AlistFind? d1.alphabet_ c2).isSome → d1.Evaluate c2 = none) := by
  have hd1 : d1 = { d with current_state_ := -1 } := by
    rw [hrel]
    unfold DeterministicFiniteAutomata.Evaluate at heval
    rw [hrel] at heval
    simp only [Bool.not_true, Bool.false_eq_true, if_false] at heval
    cases hfind : AlistFind? d.alphabet_ c with
    | none =>
      simp only [hfind, Option.some.injEq, Prod.mk.injEq] at heval
      exact heval.2.symm
    | some idx =>
      simp only [hfind] at heval
      cases hget : MatrixGet? d.states_transition_released_ d.current_state_ idx with
      | none => simp [hget] at heval
      | some s =>
        simp only [hget, Option.some.injEq, Prod.mk.injEq] at heval
        have hs : s = -1 := by
          have h1 := heval.1
          simpa using h1
        rw [hs] at heval
        exact heval.2.symm
  subst hd1
  refine ⟨rfl, ?_, ?_, ?_⟩
  · simpa [DeterministicFiniteAutomata.IsAccepted] using hfin
  · intro c2 h2
    dsimp only at h2
    unfold DeterministicFiniteAutomata.Evaluate
    dsimp only
    rw [hrel]
    simp [h2]
  · intro c2 h2
    obtain ⟨idx, hidx⟩ := Option.isSome_iff_exists.mp h2
    dsimp only at hidx
    unfold DeterministicFiniteAutomata.Evaluate
    dsimp only
    rw [hrel]
    simp [hidx, MatrixGet?]

/-- Witness for the amended C9 theorem at the lexer's released number
automaton and the failing symbol `a`. -/
theorem c9_dead_state_amended_witness :
    ({ Lexer.number_dfa.Init with current_state_ := -1 } :
      DeterministicFiniteAutomata).current_state_ = -1 ∧
    ({ Lexer.number_dfa.Init with current_state_ := -1 } :
      DeterministicFiniteAutomata).IsAccepted = false := by
  have h := c9_dead_state_amended Lexer.number_dfa.Init
    { Lexer.number_dfa.Init with current_state_ := -1 } 'a'
    (by decide!) (by decide!) (by decide!)
  exact ⟨h.1, h.2.1⟩

/-- Case split for `AddTransition`: every failing path returns the automaton
unchanged. -/
theorem AddTransition_cases (d : DeterministicFiniteAutomata)
    (f : Int) (s : Char) (t : Int) :
    d.AddTransition f s t = (false, d) ∨ (d.AddTransition f s t).1 = true := by
  unfold DeterministicFiniteAutomata.AddTransition
  split
  · exact Or.inl rfl
  · split
    · exact Or.inl rfl
    · split
      · exact Or.inl rfl
      · exact Or.inr rfl

/-- Case split for `SetFinalState`: every failing path returns the automaton
unchanged. -/
theorem SetFinalState_cases (d : DeterministicFiniteAutomata) (s : Int) :
    d.SetFinalState s = (false, d) ∨ (d.SetFinalState s).1 = true := by
  unfold DeterministicFiniteAutomata.SetFinalState
  split
  · exact Or.inl rfl
  · split
    · exact Or.inl rfl
    · exact Or.inr rfl

/-- C10: failed DFA mutations are atomic — whenever `AddTransition` or
`SetFinalState` returns `false` (already released, state out of range, or
symbol not in the alphabet), the automaton, in particular its transition
table and final-state set, is exactly as before the call. -/
theorem c10_failed_mutations_atomic (d : DeterministicFiniteAutomata) :
    (∀ from_state symbol to_state,
      (d.AddTransition from_state symbol to_state).1 = false →
      (d.AddTransition from_state symbol to_state).2 = d) ∧
    (∀ state,
      (d.SetFinalState state).1 = false →
      (d.SetFinalState state).2 = d) := by
  constructor
  · intro f s t h
    rcases AddTransition_cases d f s t with hc | hc
    · rw [hc]
    · rw [h] at hc
      exact absurd hc (by simp)
  · intro s h
    rcases SetFinalState_cases d s with hc | hc
    · rw [hc]
    · rw [h] at hc
      exact absurd hc (by simp)

/-- Witness for C10 at the lexer's released number automaton, on which both
mutations fail (`AlreadyReleased`) and change nothing. -/
theorem c10_failed_mutations_atomic_witness :
    (Lexer.number_dfa.AddTransition 0 '0' 1).2 = Lexer.number_dfa ∧
    (Lexer.number_dfa.SetFinalState 1).2 = Lexer.number_dfa :=
  ⟨(c10_failed_mutations_atomic Lexer.number_dfa).1 0 '0' 1 (by decide!),
   (c10_failed_mutations_atomic Lexer.number_dfa).2 1 (by decide!)⟩

end SCP
